import Mathlib

/-!
Verification of the PatchTrap runtime-integrity monitor (`PatchTrap.py`).

The development is a shallow embedding of the source file:

* Python values that can be bound at a watched dotted name are modelled by
  `PyValue`, which records exactly the reflection attributes that
  `_fingerprint_callable` inspects, one constructor per dispatch branch of
  that function.
* SHA-256 (`hashlib.sha256(...).hexdigest()`) is modelled by `_sha256_bytes`
  as an ideal collision-free digest: the digest is identified with the hashed
  payload, so digest equality coincides with payload equality.  Equal payloads
  hash equal under the real function as well, so every counterexample built on
  payload equality is a genuine collision of the source program.
* Process-wide mutable state (the import system reachable from dotted names,
  `sys.meta_path`, `os.environ`, `sys.argv`, and the report file) is an
  explicit `World` record.  Resolution of a dotted name is looked up in the
  world keyed by the full dotted string; rebinding an attribute updates that
  entry (aliasing of two distinct dotted names onto one attribute slot is not
  modelled).
* The guarded script (`runpy.run_path`) is an opaque collaborator of type
  `Prog := World → World × Outcome`: it may mutate any world component and
  terminates normally, with a `SystemExit`, or with an unhandled exception.
* Wall-clock readings `time.time()` at entry and exit of `PatchTrap.run` are
  passed as rational parameters; `time.sleep` is a pure delay with no model
  effect.  Python floats appear only in `max(0.0, interval)`, in sign
  comparisons and in one subtraction, so rationals model them faithfully here.
-/

/-- A value bound at a watched dotted name, as seen by the reflection probes
of `_fingerprint_callable` (PatchTrap.py lines 22-64).  One constructor per
dispatch branch, carrying exactly the attributes that branch reads:

* `func`: `inspect.isfunction/ismethod` holds; carries `type(obj).__name__`,
  the `co_code` bytes, the `repr` strings of `co_consts`, `co_names`,
  `co_varnames` and `co_filename`, `co_firstlineno`, `__module__` and
  `__qualname__`.
* `builtin`: a `types.BuiltinFunctionType/BuiltinMethodType` value with its
  `__module__`, `__qualname__` and `repr`.
* `generic`: any other callable, with its class `__module__`, class
  `__qualname__` and `repr`.
* `noncall`: a non-callable value with its `repr`.
* `raising`: a value whose fingerprinting raises; carries the type name and
  the `repr` of the raised exception (the `except` branch, lines 60-64). -/
inductive PyValue where
  | func (tyName : String) (co_code : List Nat)
      (constsRepr namesRepr varnamesRepr filenameRepr : String)
      (firstlineno : Nat) (module qualname : String)
  | builtin (tyName module qualname reprStr : String)
  | generic (tyName clsModule clsQualname reprStr : String)
  | noncall (tyName reprStr : String)
  | raising (tyName errRepr : String)
deriving DecidableEq

/-- The fingerprint dictionary built by `_fingerprint_callable`:
`type`, `hash` and `where` keys (PatchTrap.py lines 28, 40-41, 46-47,
52-53, 57-58, 62-63). -/
structure Fingerprint where
  ftype : String
  hash : List Nat
  fwhere : String
deriving DecidableEq

/-- Byte encoding of a string (`str.encode()`), modelled as the sequence of
code points.  The real UTF-8 encoding is injective, as is this model. -/
def strB (s : String) : List Nat := s.data.map Char.toNat

/-- `s[:n]` on a Python `str`: the first `n` characters. -/
def strTake (s : String) (n : Nat) : String := String.mk (s.data.take n)

/-- Model of `hashlib.sha256(b).hexdigest()` (PatchTrap.py lines 17-20):
an ideal collision-free digest, identified with the hashed payload itself.
Digest equality is payload equality; in particular equal payloads collide
under the real SHA-256 as well. -/
def _sha256_bytes (b : List Nat) : List Nat := b

/-- The exact byte payload that `_fingerprint_callable` feeds to
`_sha256_bytes` in each dispatch branch (PatchTrap.py lines 32-39, 45-46,
51-52, 56-57, 61-62). -/
def fpPayload : PyValue → List Nat
  | .func _ code csts nms vars fn fl _ _ =>
      List.intercalate (strB "||")
        [code, strB csts, strB nms, strB vars, strB fn, strB (toString fl)]
  | .builtin _ m q r => strB (m ++ ":" ++ q ++ ":" ++ strTake r 80)
  | .generic _ cm cq r => strB (cm ++ "." ++ cq ++ ":" ++ strTake r 80)
  | .noncall _ r => strB ("not-callable:" ++ strTake r 80)
  | .raising ty er => strB ("error:" ++ ty ++ ":" ++ strTake er 60)

/-- `fp["type"] = type(obj).__name__` (PatchTrap.py line 28). -/
def pyTypeName : PyValue → String
  | .func ty _ _ _ _ _ _ _ _ => ty
  | .builtin ty _ _ _ => ty
  | .generic ty _ _ _ => ty
  | .noncall ty _ => ty
  | .raising ty _ => ty

/-- `fp["where"]`, per dispatch branch (PatchTrap.py lines 41, 45-47,
51-53, 56-58, 61-63). -/
def whereLabel : PyValue → String
  | .func _ _ _ _ _ _ _ m q => m ++ "." ++ q
  | .builtin _ m q r => m ++ ":" ++ q ++ ":" ++ strTake r 80
  | .generic _ cm cq r => cm ++ "." ++ cq ++ ":" ++ strTake r 80
  | .noncall _ r => "not-callable:" ++ strTake r 80
  | .raising ty er => "error:" ++ ty ++ ":" ++ strTake er 60

/-- `_fingerprint_callable` (PatchTrap.py lines 22-64): category dispatch is
encoded in the `PyValue` constructor; each branch hashes `fpPayload`. -/
def _fingerprint_callable (obj : PyValue) : Fingerprint :=
  ⟨pyTypeName obj, _sha256_bytes (fpPayload obj), whereLabel obj⟩

/-- The spec's category name for each dispatch branch of
`_fingerprint_callable` (spec section 3, "Fingerprint"). -/
def category : PyValue → String
  | .func _ _ _ _ _ _ _ _ _ => "interpreted-unit"
  | .builtin _ _ _ _ => "opaque-native"
  | .generic _ _ _ _ => "generic-callable"
  | .noncall _ _ => "non-callable"
  | .raising _ _ => "fingerprint-error"

/-- One alert record appended to `self.alerts` (PatchTrap.py lines 120,
128-133, 138, 140, 145-149, 157-162, 191).  The source's
`{"kind": "restore", "status": "ok" | "fail"}` records are the two
`restore_*` constructors. -/
inductive Alert where
  | resolve_error (target error : String)
  | replaced (target : String) (before after : Fingerprint)
  | restore_ok (target : String)
  | restore_fail (target error : String)
  | meta_path_changed (before after : List String)
  | env_changed (added : List (String × String))
      (removed : List (String × String))
      (changed : List (String × String × String))
  | exception (error : String)
deriving DecidableEq

/-- The run report dictionary (PatchTrap.py lines 196-201). -/
structure Report where
  duration_sec : Rat
  auto_restore : Bool
  targets : List String
  alerts : List Alert
deriving DecidableEq

/-- The process-wide mutable state outside the `PatchTrap` object.

`binding` gives, for a full dotted name, the outcome of
`_resolve_dotted`'s import-and-getattr walk: the currently bound value, or
the `repr` of the exception the walk raises.  `containerQual` is the
provenance label computed for the container (line 83).  `setattrOk` and
`setattrErr` model whether `setattr(container, attr, ...)` on the target's
container succeeds, and the `repr` of the exception when it does not.
`metaPath` is the list of type names of `sys.meta_path` entries, `env` the
`os.environ` mapping as an association list (keys unique, as in a dict),
`argv` is `sys.argv`, and `writes` records each `json.dump` to the report
file as (report, indent, sort_keys). -/
structure World where
  binding : String → Except String PyValue
  containerQual : String → String
  setattrOk : String → Bool
  setattrErr : String → String
  metaPath : List String
  env : List (String × String)
  argv : List String
  writes : List (Report × Nat × Bool)

/-- Split a character list at every occurrence of `sep`, keeping empty
pieces, like Python's `str.split(sep)`. -/
def splitOnChar (sep : Char) : List Char → List (List Char)
  | [] => [[]]
  | c :: cs =>
    let r := splitOnChar sep cs
    if c = sep then [] :: r
    else
      match r with
      | [] => [[c]]
      | h :: rest => (c :: h) :: rest

/-- `name.split(".")` (PatchTrap.py line 72). -/
def splitDots (s : String) : List String :=
  (splitOnChar '.' s.data).map String.mk

/-- `_resolve_dotted` (PatchTrap.py lines 66-84): reject names with fewer
than two segments, otherwise walk the import system and attribute chain
(delegated to `World.binding`) and return the current value, the
container's provenance label and the final attribute name. -/
def _resolve_dotted (w : World) (name : String) :
    Except String (PyValue × String × String) :=
  if (splitDots name).length < 2 then
    .error ("ValueError(invalid dotted name: " ++ name ++ ")")
  else
    match w.binding name with
    | .error e => .error e
    | .ok v => .ok (v, w.containerQual name, (splitDots name).getLastD "")

/-- Effect of a successful `setattr(container, attr, v)` for the target
`dotted`: subsequent resolutions of that name see `v`. -/
def rebind (w : World) (dotted : String) (v : PyValue) : World :=
  { w with binding := fun x => if x = dotted then .ok v else w.binding x }

/-- A baseline entry `self.baseline[dotted]` (PatchTrap.py lines 108-112). -/
structure BaseEntry where
  fp : Fingerprint
  container : String
  attr : String
deriving DecidableEq

/-- The `PatchTrap` object state (PatchTrap.py lines 92-101).  `baseline`
and `originals` are the two per-target dictionaries; `meta_path0` and
`env0` are the ambient snapshots taken in `__init__`; `report` is
`self.report` (None until `run` fills it, modelled by `Option`). -/
structure PatchTrap where
  targets : List String
  auto_restore : Bool
  interval : Rat
  baseline : String → Option BaseEntry
  originals : String → Option PyValue
  meta_path0 : List String
  env0 : List (String × String)
  alerts : List Alert
  report : Option Report

/-- `PatchTrap.__init__` (PatchTrap.py lines 92-101). -/
def PatchTrap.init (targets : List String) (auto_restore : Bool)
    (interval : Rat) (w : World) : PatchTrap :=
  { targets := targets
    auto_restore := auto_restore
    interval := max 0 interval
    baseline := fun _ => none
    originals := fun _ => none
    meta_path0 := w.metaPath
    env0 := w.env
    alerts := []
    report := none }

/-- The loop body of `PatchTrap.seal` iterated over a target list
(PatchTrap.py lines 103-112).  The source has no exception handling here:
the first target whose resolution raises aborts the loop, and the dictionary
updates made for earlier targets persist; the raised exception is returned
as `some e`. -/
def sealList (t : PatchTrap) (w : World) : List String → PatchTrap × Option String
  | [] => (t, none)
  | dotted :: rest =>
    match _resolve_dotted w dotted with
    | .error e => (t, some e)
    | .ok (val, container_qual, attr) =>
      sealList
        { t with
          originals := fun x => if x = dotted then some val else t.originals x
          baseline := fun x =>
            if x = dotted then
              some ⟨_fingerprint_callable val, container_qual, attr⟩
            else t.baseline x }
        w rest

/-- `PatchTrap.seal` (PatchTrap.py lines 103-112). -/
def PatchTrap.seal (t : PatchTrap) (w : World) : PatchTrap × Option String :=
  sealList t w t.targets

/-- The per-target body of the scan loop in `PatchTrap._scan_once`
(PatchTrap.py lines 116-140).  The restore attempt reads
`self.originals[dotted]`; a missing key would raise `KeyError` inside the
`try` and be recorded as a failed restore. -/
def scanStep (t : PatchTrap) (w : World) (dotted : String) : PatchTrap × World :=
  match _resolve_dotted w dotted with
  | .error e =>
      ({ t with alerts := t.alerts ++ [.resolve_error dotted e] }, w)
  | .ok (current, _, _) =>
    match t.baseline dotted with
    | none => (t, w)
    | some base =>
      if (_fingerprint_callable current).hash ≠ base.fp.hash then
        if t.auto_restore then
          match t.originals dotted with
          | some orig =>
            if w.setattrOk dotted then
              ({ t with alerts := t.alerts ++
                  [.replaced dotted base.fp (_fingerprint_callable current),
                   .restore_ok dotted] },
               rebind w dotted orig)
            else
              ({ t with alerts := t.alerts ++
                  [.replaced dotted base.fp (_fingerprint_callable current),
                   .restore_fail dotted (w.setattrErr dotted)] }, w)
          | none =>
            ({ t with alerts := t.alerts ++
                [.replaced dotted base.fp (_fingerprint_callable current),
                 .restore_fail dotted ("KeyError(" ++ dotted ++ ")")] }, w)
        else
          ({ t with alerts := t.alerts ++
              [.replaced dotted base.fp (_fingerprint_callable current)] }, w)
      else (t, w)

/-- The scan loop `for dotted in self.targets` (PatchTrap.py lines 116-140). -/
def scanTargets (t : PatchTrap) (w : World) : List String → PatchTrap × World
  | [] => (t, w)
  | d :: ds =>
    let p := scanStep t w d
    scanTargets p.1 p.2 ds

/-- Code-point comparison of Python strings: `sorted` on `str` orders by
code points, which is the order of the `Char` code-point lists. -/
def lexLt : List Char → List Char → Bool
  | [], [] => false
  | [], _ :: _ => true
  | _ :: _, [] => false
  | c :: cs, d :: ds =>
    if c.toNat < d.toNat then true
    else if d.toNat < c.toNat then false
    else lexLt cs ds

/-- `a < b` on Python strings. -/
def strLt (a b : String) : Bool := lexLt a.data b.data

/-- Insert into an ascending list. -/
def insertSorted (x : String) : List String → List String
  | [] => [x]
  | y :: ys => if strLt y x then y :: insertSorted x ys else x :: y :: ys

/-- Python's `sorted` on a list of distinct strings. -/
def sortStr : List String → List String
  | [] => []
  | x :: xs => insertSorted x (sortStr xs)

/-- Dictionary lookup on an association list. -/
def lookupStr (k : String) : List (String × String) → Option String
  | [] => none
  | (a, b) :: rest => if a = k then some b else lookupStr k rest

/-- The key set of an environment dictionary (`set(env)`). -/
def envKeys (e : List (String × String)) : List String :=
  (e.map Prod.fst).dedup

/-- `sorted(set(env_now) - set(self.env0))` (PatchTrap.py line 153). -/
def envAdded (env0 envNow : List (String × String)) : List String :=
  sortStr ((envKeys envNow).filter (fun k => (lookupStr k env0).isNone))

/-- `sorted(set(self.env0) - set(env_now))` (PatchTrap.py line 154). -/
def envRemoved (env0 envNow : List (String × String)) : List String :=
  sortStr ((envKeys env0).filter (fun k => (lookupStr k envNow).isNone))

/-- `sorted(k for k in intersection if env_now[k] != self.env0[k])`
(PatchTrap.py line 155). -/
def envChangedKeys (env0 envNow : List (String × String)) : List String :=
  sortStr ((envKeys envNow).filter (fun k =>
    match lookupStr k env0, lookupStr k envNow with
    | some v0, some v1 => v0 != v1
    | _, _ => false))

/-- `{k: env_now[k] for k in added}` (PatchTrap.py line 159). -/
def envAddedPairs (env0 envNow : List (String × String)) : List (String × String) :=
  (envAdded env0 envNow).map (fun k => (k, (lookupStr k envNow).getD ""))

/-- `{k: self.env0[k] for k in removed}` (PatchTrap.py line 160). -/
def envRemovedPairs (env0 envNow : List (String × String)) : List (String × String) :=
  (envRemoved env0 envNow).map (fun k => (k, (lookupStr k env0).getD ""))

/-- `{k: {"before": ..., "after": ...} for k in changed}` (line 161). -/
def envChangedTriples (env0 envNow : List (String × String)) :
    List (String × String × String) :=
  (envChangedKeys env0 envNow).map
    (fun k => (k, (lookupStr k env0).getD "", (lookupStr k envNow).getD ""))

/-- `PatchTrap._scan_once` (PatchTrap.py lines 114-162): scan every target,
then compare `sys.meta_path` type names against the sealed snapshot, then
diff the environment and append a single `env_changed` alert when any of
the three partitions is non-empty. -/
def PatchTrap._scan_once (t : PatchTrap) (w : World) : PatchTrap × World :=
  let s := scanTargets t w t.targets
  let t1 := s.1
  let w1 := s.2
  let t2 :=
    if w1.metaPath ≠ t1.meta_path0 then
      { t1 with alerts :=
          t1.alerts ++ [.meta_path_changed t1.meta_path0 w1.metaPath] }
    else t1
  let t3 :=
    if envAdded t2.env0 w1.env = [] ∧ envRemoved t2.env0 w1.env = [] ∧
        envChangedKeys t2.env0 w1.env = [] then t2
    else
      { t2 with alerts := t2.alerts ++
          [.env_changed (envAddedPairs t2.env0 w1.env)
            (envRemovedPairs t2.env0 w1.env)
            (envChangedTriples t2.env0 w1.env)] }
  (t3, w1)

/-- How one execution of the guarded script terminates: normally, with
`SystemExit` (carrying `e.code`, `None` or an integer), or with an
unhandled exception whose `repr` is recorded. -/
inductive Outcome where
  | normal
  | sysExit (code : Option Int)
  | exc (error : String)
deriving DecidableEq

/-- The guarded script (`runpy.run_path`), an opaque collaborator: it may
mutate any process-wide state and then terminates with an `Outcome`. -/
abbrev Prog := World → World × Outcome

/-- `int(getattr(e, "code", 0) or 0)` for `SystemExit` (PatchTrap.py
line 187): `None` and `0` are falsy and map to 0. -/
def sysExitCode : Option Int → Int
  | none => 0
  | some n => if n = 0 then 0 else n

/-- `args_line.split() if args_line else []` (PatchTrap.py line 167),
splitting on spaces and dropping empty pieces. -/
def splitWs (s : String) : List String :=
  if s = "" then [] else ((splitOnChar ' ' s.data).map String.mk).filter (fun x => x != "")

/-- `sys.argv = [target_path] + args` (PatchTrap.py lines 166-167). -/
def argvSet (w : World) (target_path args_line : String) : World :=
  { w with argv := target_path :: splitWs args_line }

/-- `round(x, 3)` on the elapsed duration (PatchTrap.py line 195). -/
def round3 (q : Rat) : Rat := ((round (q * 1000) : Int) : Rat) / 1000

/-- The `try`-block of `PatchTrap.run` up to the point where the guarded
script has terminated (PatchTrap.py lines 173-183): with positive interval
a scan runs before the script, with interval 0 the script runs directly.
Returns the trap, the world, and how the script terminated. -/
def phase1 (t : PatchTrap) (w : World) (prog : Prog) :
    PatchTrap × World × Outcome :=
  if 0 < t.interval then
    let s := PatchTrap._scan_once t w
    let r := prog s.2
    (s.1, r.1, r.2)
  else
    let r := prog w
    (t, r.1, r.2)

/-- The remainder of the `try`/`except` of `PatchTrap.run` (PatchTrap.py
lines 177-192): on normal termination the post-run scan executes (after the
pure `time.sleep` delay in the positive-interval branch); `SystemExit` and
unhandled exceptions jump to their handlers, skipping any further scan. -/
def phase2 (t : PatchTrap) (w : World) : Outcome → PatchTrap × World × Int
  | .normal =>
    let s := PatchTrap._scan_once t w
    (s.1, s.2, 0)
  | .sysExit c => (t, w, sysExitCode c)
  | .exc e => ({ t with alerts := t.alerts ++ [.exception e] }, w, 1)

/-- `PatchTrap.run` (PatchTrap.py lines 164-206).  `tS` and `tE` are the
`time.time()` readings at lines 169 and 195.  The `finally` block restores
`sys.argv`, builds the report and writes it with `indent=2, sort_keys=True`;
the computed status code is returned. -/
def PatchTrap.run (t : PatchTrap) (w : World) (target_path args_line : String)
    (prog : Prog) (tS tE : Rat) : PatchTrap × World × Int :=
  let old_argv := w.argv
  let w0 := argvSet w target_path args_line
  let p1 := phase1 t w0 prog
  let p2 := phase2 p1.1 p1.2.1 p1.2.2
  let rep : Report :=
    ⟨round3 (tE - tS), p2.1.auto_restore, p2.1.targets, p2.1.alerts⟩
  ({ p2.1 with report := some rep },
   { p2.2.1 with
      argv := old_argv
      writes := p2.2.1.writes ++ [(rep, 2, true)] },
   p2.2.2)

/-- The target a scan-loop alert refers to; ambient and harness alerts
carry no target. -/
def alertTarget : Alert → Option String
  | .resolve_error d _ => some d
  | .replaced d _ _ => some d
  | .restore_ok d => some d
  | .restore_fail d _ => some d
  | .meta_path_changed _ _ => none
  | .env_changed _ _ _ => none
  | .exception _ => none

/-- Is this a `replaced` alert for the given target? -/
def replacedFor (dotted : String) : Alert → Bool
  | .replaced d _ _ => d == dotted
  | _ => false

/-- Is this a restore alert (ok or fail) for the given target? -/
def restoreFor (dotted : String) : Alert → Bool
  | .restore_ok d => d == dotted
  | .restore_fail d _ => d == dotted
  | _ => false

/-- Is this a restore alert of any kind? -/
def isRestore : Alert → Bool
  | .restore_ok _ => true
  | .restore_fail _ _ => true
  | _ => false

/-- Is this an `env_changed` alert? -/
def isEnvChangedAlert : Alert → Bool
  | .env_changed _ _ _ => true
  | _ => false

/-! ## Concrete scenario used by witnesses and counterexamples -/

/-- A platform builtin bound at `m.f` at seal time. -/
def exVal0 : PyValue := .builtin "builtin_function_or_method" "m" "f" "r0"

/-- A different builtin later swapped in at `m.f`; its fingerprint payload,
hence its hash, differs from `exVal0`. -/
def exVal1 : PyValue := .builtin "builtin_function_or_method" "m" "f" "r1"

/-- A world in which only `m.f` resolves (to `exVal0`), rebinding works,
one import hook is installed and the environment is empty. -/
def exWorld : World :=
  { binding := fun x => if x = "m.f" then .ok exVal0 else .error "ModuleNotFoundError(a)"
    containerQual := fun _ => "m"
    setattrOk := fun _ => true
    setattrErr := fun _ => "AttributeError(x)"
    metaPath := ["PathFinder"]
    env := []
    argv := ["patchtrap"]
    writes := [] }

/-- A trap watching `m.f`, auto-restore on, interval 0, sealed on `exWorld`. -/
def exTrap : PatchTrap :=
  ((PatchTrap.init ["m.f"] true 0 exWorld).seal exWorld).1

/-- Same trap but with scan interval 1 (the idle-wait variant). -/
def exTrapPos : PatchTrap :=
  ((PatchTrap.init ["m.f"] true 1 exWorld).seal exWorld).1

/-- `exWorld` after `m.f` has been tampered with between seal and scan. -/
def exWorldTampered : World := rebind exWorld "m.f" exVal1

/-- A guarded program that puts the sealed original back and finishes
normally (so a post-run scan sees nothing). -/
def exProgRestore : Prog := fun w => (rebind w "m.f" exVal0, .normal)

/-- A guarded program that tampers with `m.f` and then dies with an
unhandled exception. -/
def exProgRaise : Prog := fun w => (rebind w "m.f" exVal1, .exc "RuntimeError(boom)")

/-- A guarded program that requests exit code 7. -/
def exProgExit7 : Prog := fun w => (w, .sysExit (some 7))

/-- A guarded program that finishes normally without touching anything. -/
def exProgIdle : Prog := fun w => (w, .normal)

/-- The sealed trap with auto-restore disabled. -/
def exTrapNoAuto : PatchTrap :=
  ((PatchTrap.init ["m.f"] false 0 exWorld).seal exWorld).1

/-- An unsealed trap watching a resolvable target followed by an invalid
one (`"z"` has a single segment, so resolution raises `ValueError`). -/
def exTrapTwo : PatchTrap := PatchTrap.init ["m.f", "z"] true 0 exWorld

/-! ## Structural lemmas about the scan loop -/

/-- Every branch of `scanStep` appends a batch of alerts that all reference
the processed target, and either leaves the world unchanged or rebinds
exactly that target. -/
theorem scanStep_shape (t : PatchTrap) (w : World) (d : String) :
    ∃ (new : List Alert) (bd : Option PyValue),
      scanStep t w d =
        ({ t with alerts := t.alerts ++ new },
          match bd with
          | none => w
          | some v => rebind w d v) ∧
      ∀ a ∈ new, alertTarget a = some d := by
  unfold scanStep
  cases hres : _resolve_dotted w d with
  | error e =>
    exact ⟨[.resolve_error d e], none, rfl, by intro a ha; fin_cases ha <;> rfl⟩
  | ok r =>
    obtain ⟨current, cq, at_⟩ := r
    dsimp only
    cases hb : t.baseline d with
    | none => exact ⟨[], none, by simp, by simp⟩
    | some base =>
      dsimp only
      by_cases hm : (_fingerprint_callable current).hash ≠ base.fp.hash
      · rw [if_pos hm]
        by_cases hauto : t.auto_restore = true
        · rw [if_pos hauto]
          cases ho : t.originals d with
          | some orig =>
            dsimp only
            by_cases hs : w.setattrOk d = true
            · rw [if_pos hs]
              exact ⟨[.replaced d base.fp (_fingerprint_callable current),
                .restore_ok d], some orig, rfl,
                by intro a ha; fin_cases ha <;> rfl⟩
            · rw [if_neg hs]
              exact ⟨[.replaced d base.fp (_fingerprint_callable current),
                .restore_fail d (w.setattrErr d)], none, rfl,
                by intro a ha; fin_cases ha <;> rfl⟩
          | none =>
            exact ⟨[.replaced d base.fp (_fingerprint_callable current),
              .restore_fail d ("KeyError(" ++ d ++ ")")], none, rfl,
              by intro a ha; fin_cases ha <;> rfl⟩
        · rw [if_neg hauto]
          exact ⟨[.replaced d base.fp (_fingerprint_callable current)],
            none, rfl, by intro a ha; fin_cases ha <;> rfl⟩
      · rw [if_neg hm]
        exact ⟨[], none, by simp, by simp⟩

/-- The scan loop only appends alerts (each referencing one of the scanned
targets) and otherwise leaves the trap state unchanged. -/
theorem scanTargets_shape :
    ∀ (ds : List String) (t : PatchTrap) (w : World),
      ∃ new, (scanTargets t w ds).1 = { t with alerts := t.alerts ++ new } ∧
        ∀ a ∈ new, ∃ d, d ∈ ds ∧ alertTarget a = some d := by
  intro ds
  induction ds with
  | nil =>
    intro t w
    exact ⟨[], by simp [scanTargets], by simp⟩
  | cons d ds ih =>
    intro t w
    obtain ⟨n1, bd, heq, ht1⟩ := scanStep_shape t w d
    obtain ⟨n2, heq2, ht2⟩ := ih (scanStep t w d).1 (scanStep t w d).2
    refine ⟨n1 ++ n2, ?_, ?_⟩
    · show (scanTargets (scanStep t w d).1 (scanStep t w d).2 ds).1 = _
      rw [heq2, heq]
      simp
    · intro a ha
      rcases List.mem_append.mp ha with h | h
      · exact ⟨d, List.mem_cons_self d ds, ht1 a h⟩
      · obtain ⟨d2, hd2, hta⟩ := ht2 a h
        exact ⟨d2, List.mem_cons_of_mem _ hd2, hta⟩

/-- The scan loop can change the world only by rebinding scanned targets:
every other world component, and the binding of every name not in the
scanned list, is untouched. -/
theorem scanTargets_world :
    ∀ (ds : List String) (t : PatchTrap) (w : World),
      ((scanTargets t w ds).2.env = w.env ∧
        (scanTargets t w ds).2.metaPath = w.metaPath ∧
        (scanTargets t w ds).2.setattrOk = w.setattrOk ∧
        (scanTargets t w ds).2.setattrErr = w.setattrErr ∧
        (scanTargets t w ds).2.containerQual = w.containerQual ∧
        (scanTargets t w ds).2.argv = w.argv ∧
        (scanTargets t w ds).2.writes = w.writes) ∧
      ∀ x, x ∉ ds → (scanTargets t w ds).2.binding x = w.binding x := by
  intro ds
  induction ds with
  | nil => intro t w; exact ⟨⟨rfl, rfl, rfl, rfl, rfl, rfl, rfl⟩, fun x _ => rfl⟩
  | cons d ds ih =>
    intro t w
    obtain ⟨n1, bd, heq, _⟩ := scanStep_shape t w d
    obtain ⟨⟨h1, h2, h3, h4, h5, h6, h7⟩, h8⟩ := ih (scanStep t w d).1 (scanStep t w d).2
    have hw : ((scanStep t w d).2.env = w.env ∧
        (scanStep t w d).2.metaPath = w.metaPath ∧
        (scanStep t w d).2.setattrOk = w.setattrOk ∧
        (scanStep t w d).2.setattrErr = w.setattrErr ∧
        (scanStep t w d).2.containerQual = w.containerQual ∧
        (scanStep t w d).2.argv = w.argv ∧
        (scanStep t w d).2.writes = w.writes) ∧
        ∀ x, x ≠ d → (scanStep t w d).2.binding x = w.binding x := by
      rw [heq]
      cases bd with
      | none => exact ⟨⟨rfl, rfl, rfl, rfl, rfl, rfl, rfl⟩, fun x _ => rfl⟩
      | some v =>
        refine ⟨⟨rfl, rfl, rfl, rfl, rfl, rfl, rfl⟩, fun x hx => ?_⟩
        simp [rebind, hx]
    obtain ⟨⟨g1, g2, g3, g4, g5, g6, g7⟩, g8⟩ := hw
    have hgoal : scanTargets t w (d :: ds) =
        scanTargets (scanStep t w d).1 (scanStep t w d).2 ds := rfl
    rw [hgoal]
    refine ⟨⟨h1.trans g1, h2.trans g2, h3.trans g3, h4.trans g4,
      h5.trans g5, h6.trans g6, h7.trans g7⟩, fun x hx => ?_⟩
    have hxd : x ≠ d := fun hcontr => hx (hcontr ▸ List.mem_cons_self d ds)
    have hxds : x ∉ ds := fun hcontr => hx (List.mem_cons_of_mem _ hcontr)
    exact (h8 x hxds).trans (g8 x hxd)

/-- Scanning a concatenated list is scanning the first part, then the
second from the resulting state. -/
theorem scanTargets_append :
    ∀ (l1 l2 : List String) (t : PatchTrap) (w : World),
      scanTargets t w (l1 ++ l2) =
        scanTargets (scanTargets t w l1).1 (scanTargets t w l1).2 l2 := by
  intro l1
  induction l1 with
  | nil => intro l2 t w; rfl
  | cons d ds ih =>
    intro l2 t w
    show scanTargets (scanStep t w d).1 (scanStep t w d).2 (ds ++ l2) = _
    rw [ih]
    rfl

/-- A filter that only accepts alerts for a fixed target is unchanged by
scanning a list that does not contain that target. -/
theorem scanTargets_filter_not_mem (p : Alert → Bool) (dotted : String)
    (hp : ∀ a, p a = true → alertTarget a = some dotted)
    (ds : List String) (t : PatchTrap) (w : World) (h : dotted ∉ ds) :
    (scanTargets t w ds).1.alerts.filter p = t.alerts.filter p := by
  obtain ⟨new, heq, ht⟩ := scanTargets_shape ds t w
  rw [heq]
  show (t.alerts ++ new).filter p = t.alerts.filter p
  rw [List.filter_append]
  have hnil : new.filter p = [] := by
    refine List.filter_eq_nil_iff.mpr (fun a ha hpa => ?_)
    obtain ⟨d, hd, hta⟩ := ht a ha
    have := hp a hpa
    rw [this] at hta
    have : dotted = d := by
      injection hta
    exact h (this ▸ hd)
  rw [hnil, List.append_nil]

/-- A filter that only accepts targetless alerts (ambient or harness kinds)
is unchanged by the scan loop, which appends only per-target alerts. -/
theorem scanTargets_filter_none (p : Alert → Bool)
    (hp : ∀ a, p a = true → alertTarget a = none)
    (ds : List String) (t : PatchTrap) (w : World) :
    (scanTargets t w ds).1.alerts.filter p = t.alerts.filter p := by
  obtain ⟨new, heq, ht⟩ := scanTargets_shape ds t w
  rw [heq]
  show (t.alerts ++ new).filter p = t.alerts.filter p
  rw [List.filter_append]
  have hnil : new.filter p = [] := by
    refine List.filter_eq_nil_iff.mpr (fun a ha hpa => ?_)
    obtain ⟨d, _, hta⟩ := ht a ha
    rw [hp a hpa] at hta
    exact Option.noConfusion hta
  rw [hnil, List.append_nil]

/-- The scan-loop body at a target whose resolution succeeds, whose baseline
fingerprint mismatches, with auto-restore on and a successful `setattr`:
a `replaced` and a `restore ok` alert are appended and the target is
rebound to the retained original. -/
theorem scanStep_hit_ok (t : PatchTrap) (w : World) (dotted : String)
    (base : BaseEntry) (v : PyValue) (cq at_ : String) (orig : PyValue)
    (hb : t.baseline dotted = some base)
    (hr : _resolve_dotted w dotted = .ok (v, cq, at_))
    (hm : (_fingerprint_callable v).hash ≠ base.fp.hash)
    (hauto : t.auto_restore = true)
    (ho : t.originals dotted = some orig)
    (hs : w.setattrOk dotted = true) :
    scanStep t w dotted =
      ({ t with alerts := t.alerts ++
          [.replaced dotted base.fp (_fingerprint_callable v),
           .restore_ok dotted] },
        rebind w dotted orig) := by
  unfold scanStep
  rw [hr]
  dsimp only
  rw [hb]
  dsimp only
  rw [if_pos hm, if_pos hauto, ho]
  dsimp only
  rw [if_pos hs]

/-- Same as `scanStep_hit_ok` but when the `setattr` raises: the restore
alert is a failure carrying the exception text and the binding is left
as found. -/
theorem scanStep_hit_fail (t : PatchTrap) (w : World) (dotted : String)
    (base : BaseEntry) (v : PyValue) (cq at_ : String) (orig : PyValue)
    (hb : t.baseline dotted = some base)
    (hr : _resolve_dotted w dotted = .ok (v, cq, at_))
    (hm : (_fingerprint_callable v).hash ≠ base.fp.hash)
    (hauto : t.auto_restore = true)
    (ho : t.originals dotted = some orig)
    (hs : w.setattrOk dotted = false) :
    scanStep t w dotted =
      ({ t with alerts := t.alerts ++
          [.replaced dotted base.fp (_fingerprint_callable v),
           .restore_fail dotted (w.setattrErr dotted)] }, w) := by
  unfold scanStep
  rw [hr]
  dsimp only
  rw [hb]
  dsimp only
  rw [if_pos hm, if_pos hauto, ho]
  dsimp only
  rw [if_neg (by rw [hs]; exact Bool.false_ne_true)]

/-- The scan-loop body at a mismatching target with auto-restore off: only
the `replaced` alert is appended and the world is untouched. -/
theorem scanStep_hit_noauto (t : PatchTrap) (w : World) (dotted : String)
    (base : BaseEntry) (v : PyValue) (cq at_ : String)
    (hb : t.baseline dotted = some base)
    (hr : _resolve_dotted w dotted = .ok (v, cq, at_))
    (hm : (_fingerprint_callable v).hash ≠ base.fp.hash)
    (hauto : t.auto_restore = false) :
    scanStep t w dotted =
      ({ t with alerts := t.alerts ++
          [.replaced dotted base.fp (_fingerprint_callable v)] }, w) := by
  unfold scanStep
  rw [hr]
  dsimp only
  rw [hb]
  dsimp only
  rw [if_pos hm, if_neg (by rw [hauto]; exact Bool.false_ne_true)]

/-- With auto-restore off, the scan-loop body never touches the world and
never records a restore alert. -/
theorem scanStep_noauto (t : PatchTrap) (w : World) (d : String)
    (hauto : t.auto_restore = false) :
    ∃ new, scanStep t w d = ({ t with alerts := t.alerts ++ new }, w) ∧
      ∀ a ∈ new, isRestore a = false := by
  unfold scanStep
  cases hres : _resolve_dotted w d with
  | error e =>
    exact ⟨[.resolve_error d e], rfl, by intro a ha; fin_cases ha <;> rfl⟩
  | ok r =>
    obtain ⟨current, cq, at_⟩ := r
    dsimp only
    cases hb : t.baseline d with
    | none => exact ⟨[], by simp, by simp⟩
    | some base =>
      dsimp only
      by_cases hm : (_fingerprint_callable current).hash ≠ base.fp.hash
      · rw [if_pos hm, if_neg (by rw [hauto]; exact Bool.false_ne_true)]
        exact ⟨[.replaced d base.fp (_fingerprint_callable current)], rfl,
          by intro a ha; fin_cases ha <;> rfl⟩
      · rw [if_neg hm]
        exact ⟨[], by simp, by simp⟩

/-- With auto-restore off, the whole scan loop leaves the world untouched
and records no restore alert. -/
theorem scanTargets_noauto :
    ∀ (ds : List String) (t : PatchTrap) (w : World),
      t.auto_restore = false →
      (scanTargets t w ds).2 = w ∧
        (scanTargets t w ds).1.alerts.filter isRestore =
          t.alerts.filter isRestore := by
  intro ds
  induction ds with
  | nil => intro t w _; exact ⟨rfl, rfl⟩
  | cons d ds ih =>
    intro t w hauto
    obtain ⟨n1, heq, hres⟩ := scanStep_noauto t w d hauto
    have hgoal : scanTargets t w (d :: ds) =
        scanTargets (scanStep t w d).1 (scanStep t w d).2 ds := rfl
    have hauto1 : (scanStep t w d).1.auto_restore = false := by
      rw [heq]; exact hauto
    obtain ⟨hw, hf⟩ := ih (scanStep t w d).1 (scanStep t w d).2 hauto1
    rw [hgoal]
    constructor
    · rw [hw, heq]
    · rw [hf, heq]
      show (t.alerts ++ n1).filter isRestore = t.alerts.filter isRestore
      have hnil : n1.filter isRestore = [] :=
        List.filter_eq_nil_iff.mpr (fun a ha hpa => by
          rw [hres a ha] at hpa
          exact Bool.false_ne_true hpa)
      rw [List.filter_append, hnil, List.append_nil]

/-- `_scan_once` returns the world produced by the scan loop. -/
theorem scan_once_world (t : PatchTrap) (w : World) :
    (PatchTrap._scan_once t w).2 = (scanTargets t w t.targets).2 := rfl

/-- The ambient checks at the end of `_scan_once` only append
`meta_path_changed` / `env_changed` alerts, so any filter rejecting those
two kinds sees exactly the scan-loop alerts. -/
theorem scan_once_filter_kinds (p : Alert → Bool)
    (hpm : ∀ b af, p (.meta_path_changed b af) = false)
    (hpe : ∀ x y z, p (.env_changed x y z) = false)
    (t : PatchTrap) (w : World) :
    (PatchTrap._scan_once t w).1.alerts.filter p =
      (scanTargets t w t.targets).1.alerts.filter p := by
  unfold PatchTrap._scan_once
  dsimp only
  split_ifs with h1 h2 h3 <;>
    simp [List.filter_append, hpm, hpe]

/-- `_resolve_dotted` reads only the binding and container label of the
resolved name. -/
theorem resolve_congr (w1 w2 : World) (name : String)
    (hbind : w1.binding name = w2.binding name)
    (hq : w1.containerQual name = w2.containerQual name) :
    _resolve_dotted w1 name = _resolve_dotted w2 name := by
  unfold _resolve_dotted
  rw [hbind, hq]

/-- What a successful resolution tells us about the world and the name. -/
theorem resolve_ok_parts (w : World) (name : String) (v : PyValue)
    (cq at_ : String) (h : _resolve_dotted w name = .ok (v, cq, at_)) :
    ¬((splitDots name).length < 2) ∧ w.binding name = .ok v ∧
      cq = w.containerQual name ∧ at_ = (splitDots name).getLastD "" := by
  unfold _resolve_dotted at h
  by_cases hl : (splitDots name).length < 2
  · rw [if_pos hl] at h
    exact absurd h (by simp)
  · rw [if_neg hl] at h
    cases hbind : w.binding name with
    | error e => rw [hbind] at h; exact absurd h (by simp)
    | ok v2 =>
      rw [hbind] at h
      dsimp only at h
      rw [Except.ok.injEq, Prod.mk.injEq, Prod.mk.injEq] at h
      obtain ⟨h1, h2, h3⟩ := h
      exact ⟨hl, congrArg Except.ok h1, h2.symm, h3.symm⟩

/-- `_scan_once` only appends alerts to the trap; configuration fields,
baseline and originals are untouched. -/
theorem scan_once_conf (t : PatchTrap) (w : World) :
    ∃ new, (PatchTrap._scan_once t w).1 = { t with alerts := t.alerts ++ new } := by
  obtain ⟨n1, heq, _⟩ := scanTargets_shape t.targets t w
  unfold PatchTrap._scan_once
  dsimp only
  rw [heq]
  split_ifs with h1 h2 h3
  · exact ⟨n1 ++ [.meta_path_changed t.meta_path0 (scanTargets t w t.targets).2.metaPath],
      by simp⟩
  · exact ⟨n1 ++ [.meta_path_changed t.meta_path0 (scanTargets t w t.targets).2.metaPath]
      ++ [.env_changed (envAddedPairs t.env0 (scanTargets t w t.targets).2.env)
        (envRemovedPairs t.env0 (scanTargets t w t.targets).2.env)
        (envChangedTriples t.env0 (scanTargets t w t.targets).2.env)], by simp⟩
  · exact ⟨n1, by simp⟩
  · exact ⟨n1 ++ [.env_changed (envAddedPairs t.env0 (scanTargets t w t.targets).2.env)
        (envRemovedPairs t.env0 (scanTargets t w t.targets).2.env)
        (envChangedTriples t.env0 (scanTargets t w t.targets).2.env)], by simp⟩

/-- With a positive interval the try-block scans before running the script. -/
theorem phase1_pos (t : PatchTrap) (w : World) (prog : Prog)
    (h : 0 < t.interval) :
    phase1 t w prog =
      ((PatchTrap._scan_once t w).1,
        (prog (PatchTrap._scan_once t w).2).1,
        (prog (PatchTrap._scan_once t w).2).2) := by
  unfold phase1
  rw [if_pos h]

/-- With interval 0 the script runs immediately, with no preceding scan. -/
theorem phase1_nonpos (t : PatchTrap) (w : World) (prog : Prog)
    (h : ¬ 0 < t.interval) :
    phase1 t w prog = (t, (prog w).1, (prog w).2) := by
  unfold phase1
  rw [if_neg h]

/-- On normal termination the post-run scan executes and the status is 0. -/
theorem phase2_normal (t : PatchTrap) (w : World) :
    phase2 t w .normal =
      ((PatchTrap._scan_once t w).1, (PatchTrap._scan_once t w).2, 0) := rfl

/-- On `SystemExit` no further scan runs and the code is converted. -/
theorem phase2_sysExit (t : PatchTrap) (w : World) (c : Option Int) :
    phase2 t w (.sysExit c) = (t, w, sysExitCode c) := rfl

/-- On an unhandled exception only the `exception` alert is appended. -/
theorem phase2_exc (t : PatchTrap) (w : World) (e : String) :
    phase2 t w (.exc e) =
      ({ t with alerts := t.alerts ++ [.exception e] }, w, 1) := rfl

/-- `run` unpacked into its phases and `finally`-block effects: alerts,
report, writes, restored argv and status code. -/
theorem run_unfold (t : PatchTrap) (w : World) (target_path args_line : String)
    (prog : Prog) (tS tE : Rat) :
    PatchTrap.run t w target_path args_line prog tS tE =
      (let p1 := phase1 t (argvSet w target_path args_line) prog
       let p2 := phase2 p1.1 p1.2.1 p1.2.2
       let rep : Report :=
         ⟨round3 (tE - tS), p2.1.auto_restore, p2.1.targets, p2.1.alerts⟩
       ({ p2.1 with report := some rep },
        { p2.2.1 with
            argv := w.argv
            writes := p2.2.1.writes ++ [(rep, 2, true)] },
        p2.2.2)) := rfl

/-- The ambient part of `_scan_once` never touches the world: the scan's
world frame is that of the target loop. -/
theorem scan_once_world_frame (t : PatchTrap) (w : World) :
    (PatchTrap._scan_once t w).2.env = w.env ∧
    (PatchTrap._scan_once t w).2.metaPath = w.metaPath ∧
    (PatchTrap._scan_once t w).2.argv = w.argv ∧
    (PatchTrap._scan_once t w).2.writes = w.writes := by
  rw [scan_once_world]
  obtain ⟨⟨h1, h2, _, _, _, h6, h7⟩, _⟩ := scanTargets_world t.targets t w
  exact ⟨h1, h2, h6, h7⟩

/-- The pre-run phase preserves the trap configuration and only appends
alerts. -/
theorem phase1_conf (t : PatchTrap) (w : World) (prog : Prog) :
    (phase1 t w prog).1.auto_restore = t.auto_restore ∧
    (phase1 t w prog).1.targets = t.targets ∧
    ∃ n, (phase1 t w prog).1.alerts = t.alerts ++ n := by
  unfold phase1
  split_ifs with h
  · obtain ⟨n, heq⟩ := scan_once_conf t w
    dsimp only
    rw [heq]
    exact ⟨rfl, rfl, n, rfl⟩
  · exact ⟨rfl, rfl, [], by simp⟩

/-- The post-run phase preserves the trap configuration and only appends
alerts. -/
theorem phase2_conf (t : PatchTrap) (w : World) (o : Outcome) :
    (phase2 t w o).1.auto_restore = t.auto_restore ∧
    (phase2 t w o).1.targets = t.targets ∧
    ∃ n, (phase2 t w o).1.alerts = t.alerts ++ n := by
  cases o with
  | normal =>
    rw [phase2_normal]
    obtain ⟨n, heq⟩ := scan_once_conf t w
    rw [heq]
    exact ⟨rfl, rfl, n, rfl⟩
  | sysExit c => exact ⟨rfl, rfl, [], (List.append_nil _).symm⟩
  | exc e => exact ⟨rfl, rfl, [.exception e], rfl⟩

/-- The post-run phase never performs a report write. -/
theorem phase2_writes (t : PatchTrap) (w : World) (o : Outcome) :
    (phase2 t w o).2.1.writes = w.writes := by
  cases o with
  | normal => exact (scan_once_world_frame t w).2.2.2
  | sysExit c => rfl
  | exc e => rfl

/-- `round(q, 3)` of a non-negative duration is non-negative. -/
theorem round3_nonneg (q : Rat) (h : 0 ≤ q) : 0 ≤ round3 q := by
  unfold round3
  apply div_nonneg _ (by norm_num)
  have hz : (0 : ℤ) ≤ round (q * 1000) := by
    rw [round_eq]
    refine Int.floor_nonneg.mpr ?_
    nlinarith
  exact_mod_cast hz

/-! ## Claim C10 -/

/-- Claim C10: every invocation of `PatchTrap.run` restores the process-wide
argument vector `sys.argv` to exactly the value it had before the call, on
every path — the guarded program is universally quantified, may terminate
normally, with `SystemExit` or with an unhandled failure, and may itself
mutate `argv`. -/
theorem c10_argv_restored (t : PatchTrap) (w : World)
    (target_path args_line : String) (prog : Prog) (tS tE : Rat) :
    (PatchTrap.run t w target_path args_line prog tS tE).2.1.argv = w.argv := rfl

/-! ## Claim C6 -/

/-- Claim C6: the exit-status mapping of `PatchTrap.run`: an explicit
program-requested integer exit code `n` is propagated verbatim as the return
value (a bare `sys.exit()` maps to 0), an unhandled failure maps to the
fixed status 1, and normal completion maps to 0. -/
theorem c6_exit_status (t : PatchTrap) (w : World)
    (target_path args_line : String) (prog : Prog) (tS tE : Rat) :
    (∀ n : Int,
      (phase1 t (argvSet w target_path args_line) prog).2.2 = .sysExit (some n) →
      (PatchTrap.run t w target_path args_line prog tS tE).2.2 = n) ∧
    ((phase1 t (argvSet w target_path args_line) prog).2.2 = .sysExit none →
      (PatchTrap.run t w target_path args_line prog tS tE).2.2 = 0) ∧
    (∀ e : String,
      (phase1 t (argvSet w target_path args_line) prog).2.2 = .exc e →
      (PatchTrap.run t w target_path args_line prog tS tE).2.2 = 1) ∧
    ((phase1 t (argvSet w target_path args_line) prog).2.2 = .normal →
      (PatchTrap.run t w target_path args_line prog tS tE).2.2 = 0) := by
  have hrc : (PatchTrap.run t w target_path args_line prog tS tE).2.2 =
      (phase2 (phase1 t (argvSet w target_path args_line) prog).1
        (phase1 t (argvSet w target_path args_line) prog).2.1
        (phase1 t (argvSet w target_path args_line) prog).2.2).2.2 := rfl
  refine ⟨fun n h => ?_, fun h => ?_, fun e h => ?_, fun h => ?_⟩
  · rw [hrc, h, phase2_sysExit]
    show sysExitCode (some n) = n
    unfold sysExitCode
    dsimp only
    by_cases hn : n = 0
    · rw [if_pos hn, hn]
    · rw [if_neg hn]
  · rw [hrc, h, phase2_sysExit]
    rfl
  · rw [hrc, h, phase2_exc]
  · rw [hrc, h, phase2_normal]

/-- Concrete runs exercising `c6_exit_status`: `sys.exit(7)` returns 7, an
unhandled exception returns 1, normal completion returns 0. -/
theorem c6_exit_status_witness :
    ((phase1 exTrap (argvSet exWorld "x.py" "") exProgExit7).2.2 =
        Outcome.sysExit (some 7) ∧
      (PatchTrap.run exTrap exWorld "x.py" "" exProgExit7 0 0).2.2 = 7) ∧
    ((phase1 exTrap (argvSet exWorld "x.py" "") exProgRaise).2.2 =
        Outcome.exc "RuntimeError(boom)" ∧
      (PatchTrap.run exTrap exWorld "x.py" "" exProgRaise 0 0).2.2 = 1) ∧
    ((phase1 exTrap (argvSet exWorld "x.py" "") exProgIdle).2.2 =
        Outcome.normal ∧
      (PatchTrap.run exTrap exWorld "x.py" "" exProgIdle 0 0).2.2 = 0) :=
  ⟨⟨by decide, (c6_exit_status exTrap exWorld "x.py" "" exProgExit7 0 0).1 7 (by decide)⟩,
   ⟨by decide, (c6_exit_status exTrap exWorld "x.py" "" exProgRaise 0 0).2.2.1
      "RuntimeError(boom)" (by decide)⟩,
   ⟨by decide, (c6_exit_status exTrap exWorld "x.py" "" exProgIdle 0 0).2.2.2 (by decide)⟩⟩

/-! ## Claim C2 -/

/-- Claim C2 as stated is false: when the guarded program tampers with a
sealed target and then terminates by an unhandled exception, `run` performs
no post-execution scan — the final alert list holds only the `exception`
alert and no `replaced` alert, although a scan of the post-program state
would have produced one. -/
theorem c2_counterexample :
    (PatchTrap.run exTrap exWorld "x.py" "" exProgRaise 0 0).1.alerts =
      [Alert.exception "RuntimeError(boom)"] ∧
    (PatchTrap._scan_once exTrap
        (rebind (argvSet exWorld "x.py" "") "m.f" exVal1)).1.alerts ≠ [] := by
  refine ⟨by decide, by decide⟩

/-- Claim C2 (amended): the transition to the post-execution checkpoint
happens only on normal completion of the guarded program.  If the program
terminates with `SystemExit` or an unhandled exception, no post-run scan
occurs: on an exception exactly the `exception` alert is appended, the run
returns 1, and the report — carrying that alert — is still written; on
`SystemExit` nothing is appended after the program. -/
theorem c2_checkpoint_after_run (t : PatchTrap) (w : World)
    (target_path args_line : String) (prog : Prog) (tS tE : Rat) :
    (∀ e : String,
      (phase1 t (argvSet w target_path args_line) prog).2.2 = .exc e →
      (PatchTrap.run t w target_path args_line prog tS tE).1.alerts =
          (phase1 t (argvSet w target_path args_line) prog).1.alerts ++
            [Alert.exception e] ∧
        (PatchTrap.run t w target_path args_line prog tS tE).2.2 = 1 ∧
        ∃ rep : Report,
          (PatchTrap.run t w target_path args_line prog tS tE).1.report = some rep ∧
          rep.alerts =
            (phase1 t (argvSet w target_path args_line) prog).1.alerts ++
              [Alert.exception e] ∧
          (PatchTrap.run t w target_path args_line prog tS tE).2.1.writes =
            (phase1 t (argvSet w target_path args_line) prog).2.1.writes ++
              [(rep, 2, true)]) ∧
    (∀ c : Option Int,
      (phase1 t (argvSet w target_path args_line) prog).2.2 = .sysExit c →
      (PatchTrap.run t w target_path args_line prog tS tE).1.alerts =
        (phase1 t (argvSet w target_path args_line) prog).1.alerts) ∧
    ((phase1 t (argvSet w target_path args_line) prog).2.2 = .normal →
      (PatchTrap.run t w target_path args_line prog tS tE).1.alerts =
        (PatchTrap._scan_once
          (phase1 t (argvSet w target_path args_line) prog).1
          (phase1 t (argvSet w target_path args_line) prog).2.1).1.alerts) := by
  have halerts : (PatchTrap.run t w target_path args_line prog tS tE).1.alerts =
      (phase2 (phase1 t (argvSet w target_path args_line) prog).1
        (phase1 t (argvSet w target_path args_line) prog).2.1
        (phase1 t (argvSet w target_path args_line) prog).2.2).1.alerts := rfl
  refine ⟨fun e he => ?_, fun c hc => ?_, fun hn => ?_⟩
  · refine ⟨by rw [halerts, he, phase2_exc], by
      show (phase2 _ _ (phase1 t (argvSet w target_path args_line) prog).2.2).2.2 = 1
      rw [he, phase2_exc], ?_⟩
    refine ⟨_, rfl, ?_, ?_⟩
    · show (phase2 (phase1 t (argvSet w target_path args_line) prog).1
          (phase1 t (argvSet w target_path args_line) prog).2.1
          (phase1 t (argvSet w target_path args_line) prog).2.2).1.alerts = _
      rw [he, phase2_exc]
    · show (phase2 _ _ (phase1 t (argvSet w target_path args_line) prog).2.2).2.1.writes
          ++ _ = _ ++ _
      rw [he, phase2_exc]
  · rw [halerts, hc, phase2_sysExit]
  · rw [halerts, hn, phase2_normal]

/-- Concrete run exercising `c2_checkpoint_after_run` on the
unhandled-failure path. -/
theorem c2_checkpoint_after_run_witness :
    (phase1 exTrap (argvSet exWorld "x.py" "") exProgRaise).2.2 =
        Outcome.exc "RuntimeError(boom)" ∧
      (PatchTrap.run exTrap exWorld "x.py" "" exProgRaise 0 0).1.alerts =
        (phase1 exTrap (argvSet exWorld "x.py" "") exProgRaise).1.alerts ++
          [Alert.exception "RuntimeError(boom)"] ∧
      (PatchTrap.run exTrap exWorld "x.py" "" exProgRaise 0 0).2.2 = 1 ∧
      ∃ rep : Report,
        (PatchTrap.run exTrap exWorld "x.py" "" exProgRaise 0 0).1.report = some rep ∧
        rep.alerts =
          (phase1 exTrap (argvSet exWorld "x.py" "") exProgRaise).1.alerts ++
            [Alert.exception "RuntimeError(boom)"] ∧
        (PatchTrap.run exTrap exWorld "x.py" "" exProgRaise 0 0).2.1.writes =
          (phase1 exTrap (argvSet exWorld "x.py" "") exProgRaise).2.1.writes ++
            [(rep, 2, true)] :=
  ⟨by decide,
    (c2_checkpoint_after_run exTrap exWorld "x.py" "" exProgRaise 0 0).1
      "RuntimeError(boom)" (by decide)⟩

/-! ## Claim C3 -/

/-- Claim C3 as stated is false: with interval 0 there is no checkpoint scan
before the guarded program starts.  Here `m.f` is tampered with before
`run`, the program puts the sealed original back and completes normally;
the run raises no alert at all, although a scan of the pre-program state
would have raised one — so no pre-program scan can have happened. -/
theorem c3_counterexample :
    (PatchTrap.run exTrap exWorldTampered "x.py" "" exProgRestore 0 0).1.alerts = [] ∧
    (PatchTrap._scan_once exTrap exWorldTampered).1.alerts ≠ [] := by
  refine ⟨by decide, by decide⟩

/-- Claim C3 (amended): interval 0 means "scan only after the run" — the
whole alert output of a normally-completing run is that of a single scan of
the post-program state; a positive interval adds a scan before the program
starts (and an idle wait before the final scan, which is a pure delay). -/
theorem c3_scan_schedule (t : PatchTrap) (w : World)
    (target_path args_line : String) (progW : World → World) (tS tE : Rat) :
    (¬ 0 < t.interval →
      (PatchTrap.run t w target_path args_line
          (fun x => (progW x, .normal)) tS tE).1.alerts =
        (PatchTrap._scan_once t
          (progW (argvSet w target_path args_line))).1.alerts) ∧
    (0 < t.interval →
      (PatchTrap.run t w target_path args_line
          (fun x => (progW x, .normal)) tS tE).1.alerts =
        (PatchTrap._scan_once
          (PatchTrap._scan_once t (argvSet w target_path args_line)).1
          (progW
            (PatchTrap._scan_once t
              (argvSet w target_path args_line)).2)).1.alerts) := by
  have halerts : ∀ prog : Prog,
      (PatchTrap.run t w target_path args_line prog tS tE).1.alerts =
      (phase2 (phase1 t (argvSet w target_path args_line) prog).1
        (phase1 t (argvSet w target_path args_line) prog).2.1
        (phase1 t (argvSet w target_path args_line) prog).2.2).1.alerts :=
    fun _ => rfl
  constructor
  · intro h
    rw [halerts, phase1_nonpos t (argvSet w target_path args_line) _ h]
    rw [phase2_normal]
  · intro h
    rw [halerts, phase1_pos t (argvSet w target_path args_line) _ h]
    rw [phase2_normal]

/-- Concrete runs exercising both branches of `c3_scan_schedule`: the sealed
trap with interval 0 (no pre-run scan) and with interval 1 (pre-run scan
before the program). -/
theorem c3_scan_schedule_witness :
    (¬ 0 < exTrap.interval ∧
      (PatchTrap.run exTrap exWorldTampered "x.py" "" exProgRestore 0 0).1.alerts =
        (PatchTrap._scan_once exTrap
          (exProgRestore (argvSet exWorldTampered "x.py" "")).1).1.alerts) ∧
    (0 < exTrapPos.interval ∧
      (PatchTrap.run exTrapPos exWorldTampered "x.py" "" exProgRestore 0 0).1.alerts =
        (PatchTrap._scan_once
          (PatchTrap._scan_once exTrapPos (argvSet exWorldTampered "x.py" "")).1
          ((fun x => (exProgRestore x).1)
            (PatchTrap._scan_once exTrapPos
              (argvSet exWorldTampered "x.py" "")).2)).1.alerts) :=
  ⟨⟨by decide,
      (c3_scan_schedule exTrap exWorldTampered "x.py" ""
        (fun x => (exProgRestore x).1) 0 0).1 (by decide)⟩,
    ⟨by decide,
      (c3_scan_schedule exTrapPos exWorldTampered "x.py" ""
        (fun x => (exProgRestore x).1) 0 0).2 (by decide)⟩⟩

/-! ## Claim C7 -/

/-- Claim C7: on every run outcome exactly one run report is produced by the
harness, as the final action: `run` appends exactly one report write (with
2-space indent and sorted keys), stores the same report in `self.report`,
its duration is non-negative (the exit reading being no earlier than the
entry reading), it carries the auto-restore flag, the target list, and the
full final alert list, which extends the initial alert list in append
order. -/
theorem c7_report_completeness (t : PatchTrap) (w : World)
    (target_path args_line : String) (prog : Prog) (tS tE : Rat)
    (h : tS ≤ tE) :
    ∃ rep : Report,
      (PatchTrap.run t w target_path args_line prog tS tE).1.report = some rep ∧
      (PatchTrap.run t w target_path args_line prog tS tE).2.1.writes =
        (phase1 t (argvSet w target_path args_line) prog).2.1.writes ++
          [(rep, 2, true)] ∧
      0 ≤ rep.duration_sec ∧
      rep.auto_restore = t.auto_restore ∧
      rep.targets = t.targets ∧
      rep.alerts = (PatchTrap.run t w target_path args_line prog tS tE).1.alerts ∧
      ∃ extra, rep.alerts = t.alerts ++ extra := by
  obtain ⟨ha1, ht1, n1, he1⟩ :=
    phase1_conf t (argvSet w target_path args_line) prog
  obtain ⟨ha2, ht2, n2, he2⟩ :=
    phase2_conf (phase1 t (argvSet w target_path args_line) prog).1
      (phase1 t (argvSet w target_path args_line) prog).2.1
      (phase1 t (argvSet w target_path args_line) prog).2.2
  refine ⟨_, rfl, ?_, ?_, ?_, ?_, rfl, ?_⟩
  · show (phase2 (phase1 t (argvSet w target_path args_line) prog).1
        (phase1 t (argvSet w target_path args_line) prog).2.1
        (phase1 t (argvSet w target_path args_line) prog).2.2).2.1.writes
      ++ _ = _ ++ _
    rw [phase2_writes]
  · exact round3_nonneg _ (by linarith)
  · exact ha2.trans ha1
  · exact ht2.trans ht1
  · refine ⟨n1 ++ n2, ?_⟩
    show (phase2 (phase1 t (argvSet w target_path args_line) prog).1
        (phase1 t (argvSet w target_path args_line) prog).2.1
        (phase1 t (argvSet w target_path args_line) prog).2.2).1.alerts =
      t.alerts ++ (n1 ++ n2)
    rw [he2, he1, List.append_assoc]

/-- Concrete run exercising `c7_report_completeness`. -/
theorem c7_report_completeness_witness :
    (0 : Rat) ≤ 0 ∧
    ∃ rep : Report,
      (PatchTrap.run exTrap exWorld "x.py" "" exProgIdle 0 0).1.report = some rep ∧
      (PatchTrap.run exTrap exWorld "x.py" "" exProgIdle 0 0).2.1.writes =
        (phase1 exTrap (argvSet exWorld "x.py" "") exProgIdle).2.1.writes ++
          [(rep, 2, true)] ∧
      0 ≤ rep.duration_sec ∧
      rep.auto_restore = exTrap.auto_restore ∧
      rep.targets = exTrap.targets ∧
      rep.alerts = (PatchTrap.run exTrap exWorld "x.py" "" exProgIdle 0 0).1.alerts ∧
      ∃ extra, rep.alerts = exTrap.alerts ++ extra :=
  ⟨le_refl 0, c7_report_completeness exTrap exWorld "x.py" "" exProgIdle 0 0 (le_refl 0)⟩

/-- A `replaced`-for-`dotted` alert references `dotted`. -/
theorem replacedFor_target (dotted : String) :
    ∀ a, replacedFor dotted a = true → alertTarget a = some dotted := by
  intro a ha
  cases a <;> simp_all [replacedFor, alertTarget]

/-- A restore-for-`dotted` alert references `dotted`. -/
theorem restoreFor_target (dotted : String) :
    ∀ a, restoreFor dotted a = true → alertTarget a = some dotted := by
  intro a ha
  cases a <;> simp_all [restoreFor, alertTarget]

/-- The scan-loop body at a mismatching target when the retained original is
missing from `self.originals`: the restore attempt raises `KeyError` and is
recorded as a failure. -/
theorem scanStep_hit_keyerror (t : PatchTrap) (w : World) (dotted : String)
    (base : BaseEntry) (v : PyValue) (cq at_ : String)
    (hb : t.baseline dotted = some base)
    (hr : _resolve_dotted w dotted = .ok (v, cq, at_))
    (hm : (_fingerprint_callable v).hash ≠ base.fp.hash)
    (hauto : t.auto_restore = true)
    (ho : t.originals dotted = none) :
    scanStep t w dotted =
      ({ t with alerts := t.alerts ++
          [.replaced dotted base.fp (_fingerprint_callable v),
           .restore_fail dotted ("KeyError(" ++ dotted ++ ")")] }, w) := by
  unfold scanStep
  rw [hr]
  dsimp only
  rw [hb]
  dsimp only
  rw [if_pos hm, if_pos hauto, ho]

/-- In every configuration, a mismatching target contributes exactly one
`replaced` alert (possibly followed by a restore alert, which the
`replaced` filter drops). -/
theorem scanStep_hit_filter_replaced (t : PatchTrap) (w : World)
    (dotted : String) (base : BaseEntry) (v : PyValue) (cq at_ : String)
    (hb : t.baseline dotted = some base)
    (hr : _resolve_dotted w dotted = .ok (v, cq, at_))
    (hm : (_fingerprint_callable v).hash ≠ base.fp.hash) :
    (scanStep t w dotted).1.alerts.filter (replacedFor dotted) =
      t.alerts.filter (replacedFor dotted) ++
        [.replaced dotted base.fp (_fingerprint_callable v)] := by
  cases hauto : t.auto_restore with
  | true =>
    cases ho : t.originals dotted with
    | some orig =>
      cases hs : w.setattrOk dotted with
      | true =>
        rw [scanStep_hit_ok t w dotted base v cq at_ orig hb hr hm hauto ho hs]
        show (t.alerts ++ _).filter _ = _
        rw [List.filter_append]
        simp [replacedFor]
      | false =>
        rw [scanStep_hit_fail t w dotted base v cq at_ orig hb hr hm hauto ho hs]
        show (t.alerts ++ _).filter _ = _
        rw [List.filter_append]
        simp [replacedFor]
    | none =>
      rw [scanStep_hit_keyerror t w dotted base v cq at_ hb hr hm hauto ho]
      show (t.alerts ++ _).filter _ = _
      rw [List.filter_append]
      simp [replacedFor]
  | false =>
    rw [scanStep_hit_noauto t w dotted base v cq at_ hb hr hm hauto]
    show (t.alerts ++ _).filter _ = _
    rw [List.filter_append]
    simp [replacedFor]

/-! ## Claim C1 -/

/-- Claim C1: for a sealed target (appearing once in the watch list) whose
bound value has been replaced between seal and scan by a value whose
fingerprint hash differs from the baseline hash, one call to `_scan_once`
appends exactly one `replaced` alert referencing that target, whose
`before` fingerprint is the sealed baseline fingerprint and whose `after`
fingerprint is that of the newly bound value. -/
theorem c1_tamper_detection (t : PatchTrap) (w : World) (dotted : String)
    (base : BaseEntry) (v : PyValue) (cq at_ : String)
    (hcnt : t.targets.count dotted = 1)
    (hb : t.baseline dotted = some base)
    (hr : _resolve_dotted w dotted = .ok (v, cq, at_))
    (hm : (_fingerprint_callable v).hash ≠ base.fp.hash) :
    (PatchTrap._scan_once t w).1.alerts.filter (replacedFor dotted) =
      t.alerts.filter (replacedFor dotted) ++
        [Alert.replaced dotted base.fp (_fingerprint_callable v)] := by
  rw [scan_once_filter_kinds (replacedFor dotted)
    (fun _ _ => rfl) (fun _ _ _ => rfl)]
  have hmem : dotted ∈ t.targets := by
    have : 0 < t.targets.count dotted := by omega
    exact List.count_pos_iff.mp this
  obtain ⟨pre, post, hsplit⟩ := List.append_of_mem hmem
  have hc0 : pre.count dotted = 0 ∧ post.count dotted = 0 := by
    rw [hsplit, List.count_append] at hcnt
    have hcc : (dotted :: post).count dotted = post.count dotted + 1 :=
      List.count_cons_self dotted post
    omega
  have hpre : dotted ∉ pre := List.count_eq_zero.mp hc0.1
  have hpost : dotted ∉ post := List.count_eq_zero.mp hc0.2
  obtain ⟨np, heqp, _⟩ := scanTargets_shape pre t w
  obtain ⟨hwfields, hwbind⟩ := scanTargets_world pre t w
  have hbp : (scanTargets t w pre).1.baseline dotted = some base := by
    rw [heqp]
    exact hb
  have hrp : _resolve_dotted (scanTargets t w pre).2 dotted = .ok (v, cq, at_) := by
    rw [resolve_congr (scanTargets t w pre).2 w dotted (hwbind dotted hpre)
      (congrFun hwfields.2.2.2.2.1 dotted)]
    exact hr
  have hfp : (scanTargets t w pre).1.alerts.filter (replacedFor dotted) =
      t.alerts.filter (replacedFor dotted) :=
    scanTargets_filter_not_mem (replacedFor dotted) dotted
      (replacedFor_target dotted) pre t w hpre
  rw [hsplit, scanTargets_append]
  have hone : scanTargets (scanTargets t w pre).1 (scanTargets t w pre).2
      (dotted :: post) =
      scanTargets (scanStep (scanTargets t w pre).1 (scanTargets t w pre).2 dotted).1
        (scanStep (scanTargets t w pre).1 (scanTargets t w pre).2 dotted).2
        post := rfl
  rw [hone, scanTargets_filter_not_mem (replacedFor dotted) dotted
    (replacedFor_target dotted) post _ _ hpost,
    scanStep_hit_filter_replaced (scanTargets t w pre).1 (scanTargets t w pre).2
      dotted base v cq at_ hbp hrp hm, hfp]

/-- Concrete scan exercising `c1_tamper_detection`: the sealed trap scanned
after `m.f` was swapped to `exVal1`. -/
theorem c1_tamper_detection_witness :
    (exTrap.targets.count "m.f" = 1 ∧
      exTrap.baseline "m.f" =
        some ⟨_fingerprint_callable exVal0, "m", "f"⟩ ∧
      _resolve_dotted exWorldTampered "m.f" = .ok (exVal1, "m", "f") ∧
      (_fingerprint_callable exVal1).hash ≠
        (_fingerprint_callable exVal0).hash) ∧
    (PatchTrap._scan_once exTrap exWorldTampered).1.alerts.filter
        (replacedFor "m.f") =
      exTrap.alerts.filter (replacedFor "m.f") ++
        [Alert.replaced "m.f" (_fingerprint_callable exVal0)
          (_fingerprint_callable exVal1)] :=
  ⟨⟨by decide, by decide, rfl, by decide⟩,
    c1_tamper_detection exTrap exWorldTampered "m.f"
      ⟨_fingerprint_callable exVal0, "m", "f"⟩ exVal1 "m" "f"
      (by decide) (by decide) rfl (by decide)⟩

/-- Resolution through a world whose binding of the name is known. -/
theorem resolve_from_binding (w2 : World) (name : String) (u : PyValue)
    (hlen : ¬((splitDots name).length < 2))
    (hbind : w2.binding name = .ok u) :
    _resolve_dotted w2 name =
      .ok (u, w2.containerQual name, (splitDots name).getLastD "") := by
  unfold _resolve_dotted
  rw [if_neg hlen, hbind]

/-! ## Claim C5 -/

/-- Claim C5: restore behaviour on a detected `replaced` mismatch for a
sealed target (watched once).  With auto-restore on and a working `setattr`,
the container attribute is rebound to the retained original — the next
resolution of the target yields the original — and exactly one
`restore ok` alert is appended; if the rebinding raises, exactly one
`restore fail` alert carrying the failure reason is appended and the
binding is left as found.  With auto-restore off, the scan appends no
restore alert of any kind and leaves the world — in particular the
replaced binding — completely untouched. -/
theorem c5_restore_correctness (t : PatchTrap) (w : World) (dotted : String)
    (base : BaseEntry) (v orig : PyValue) (cq at_ : String)
    (hcnt : t.targets.count dotted = 1)
    (hb : t.baseline dotted = some base)
    (hr : _resolve_dotted w dotted = .ok (v, cq, at_))
    (hm : (_fingerprint_callable v).hash ≠ base.fp.hash)
    (ho : t.originals dotted = some orig) :
    (t.auto_restore = true → w.setattrOk dotted = true →
      _resolve_dotted (PatchTrap._scan_once t w).2 dotted = .ok (orig, cq, at_) ∧
      (PatchTrap._scan_once t w).1.alerts.filter (restoreFor dotted) =
        t.alerts.filter (restoreFor dotted) ++ [Alert.restore_ok dotted]) ∧
    (t.auto_restore = true → w.setattrOk dotted = false →
      (PatchTrap._scan_once t w).2.binding dotted = w.binding dotted ∧
      (PatchTrap._scan_once t w).1.alerts.filter (restoreFor dotted) =
        t.alerts.filter (restoreFor dotted) ++
          [Alert.restore_fail dotted (w.setattrErr dotted)]) ∧
    (t.auto_restore = false →
      (PatchTrap._scan_once t w).2 = w ∧
      (PatchTrap._scan_once t w).1.alerts.filter isRestore =
        t.alerts.filter isRestore) := by
  obtain ⟨hlen, hbindw, hcq, hat⟩ := resolve_ok_parts w dotted v cq at_ hr
  have hmem : dotted ∈ t.targets := by
    have : 0 < t.targets.count dotted := by omega
    exact List.count_pos_iff.mp this
  obtain ⟨pre, post, hsplit⟩ := List.append_of_mem hmem
  have hc0 : pre.count dotted = 0 ∧ post.count dotted = 0 := by
    rw [hsplit, List.count_append] at hcnt
    have hcc : (dotted :: post).count dotted = post.count dotted + 1 :=
      List.count_cons_self dotted post
    omega
  have hpre : dotted ∉ pre := List.count_eq_zero.mp hc0.1
  have hpost : dotted ∉ post := List.count_eq_zero.mp hc0.2
  obtain ⟨np, heqp, _⟩ := scanTargets_shape pre t w
  obtain ⟨hwfields, hwbind⟩ := scanTargets_world pre t w
  have hbp : (scanTargets t w pre).1.baseline dotted = some base := by
    rw [heqp]; exact hb
  have hop : (scanTargets t w pre).1.originals dotted = some orig := by
    rw [heqp]; exact ho
  have hrp : _resolve_dotted (scanTargets t w pre).2 dotted = .ok (v, cq, at_) := by
    rw [resolve_congr (scanTargets t w pre).2 w dotted (hwbind dotted hpre)
      (congrFun hwfields.2.2.2.2.1 dotted)]
    exact hr
  have hsokp : (scanTargets t w pre).2.setattrOk dotted = w.setattrOk dotted :=
    congrFun hwfields.2.2.1 dotted
  have hserrp : (scanTargets t w pre).2.setattrErr dotted = w.setattrErr dotted :=
    congrFun hwfields.2.2.2.1 dotted
  have hcqp : (scanTargets t w pre).2.containerQual dotted = w.containerQual dotted :=
    congrFun hwfields.2.2.2.2.1 dotted
  have hfpR : (scanTargets t w pre).1.alerts.filter (restoreFor dotted) =
      t.alerts.filter (restoreFor dotted) :=
    scanTargets_filter_not_mem (restoreFor dotted) dotted
      (restoreFor_target dotted) pre t w hpre
  have hone : scanTargets (scanTargets t w pre).1 (scanTargets t w pre).2
      (dotted :: post) =
      scanTargets
        (scanStep (scanTargets t w pre).1 (scanTargets t w pre).2 dotted).1
        (scanStep (scanTargets t w pre).1 (scanTargets t w pre).2 dotted).2
        post := rfl
  have hfilter : ∀ L : List Alert,
      (scanStep (scanTargets t w pre).1 (scanTargets t w pre).2 dotted).1.alerts
        = (scanTargets t w pre).1.alerts ++ L →
      (PatchTrap._scan_once t w).1.alerts.filter (restoreFor dotted) =
        t.alerts.filter (restoreFor dotted) ++ L.filter (restoreFor dotted) := by
    intro L hL
    rw [scan_once_filter_kinds (restoreFor dotted)
      (fun _ _ => rfl) (fun _ _ _ => rfl), hsplit, scanTargets_append, hone,
      scanTargets_filter_not_mem (restoreFor dotted) dotted
        (restoreFor_target dotted) post _ _ hpost, hL,
      List.filter_append, hfpR]
  have hworld : ∀ w2 : World,
      (scanStep (scanTargets t w pre).1 (scanTargets t w pre).2 dotted).2 = w2 →
      (PatchTrap._scan_once t w).2.binding dotted = w2.binding dotted ∧
      (PatchTrap._scan_once t w).2.containerQual dotted = w2.containerQual dotted := by
    intro w2 hw2
    rw [scan_once_world, hsplit, scanTargets_append, hone]
    constructor
    · rw [(scanTargets_world post _ _).2 dotted hpost, hw2]
    · rw [congrFun (scanTargets_world post _ _).1.2.2.2.2.1 dotted, hw2]
  refine ⟨fun hauto hs => ?_, fun hauto hs => ?_, fun hauto => ?_⟩
  · have hautop : (scanTargets t w pre).1.auto_restore = true := by
      rw [heqp]; exact hauto
    have hsp : (scanTargets t w pre).2.setattrOk dotted = true := by
      rw [hsokp]; exact hs
    have hstep := scanStep_hit_ok (scanTargets t w pre).1 (scanTargets t w pre).2
      dotted base v cq at_ orig hbp hrp hm hautop hop hsp
    obtain ⟨hbindf, hcqf⟩ := hworld (rebind (scanTargets t w pre).2 dotted orig)
      (by rw [hstep])
    constructor
    · have hbindf2 : (PatchTrap._scan_once t w).2.binding dotted = .ok orig := by
        rw [hbindf]
        simp [rebind]
      rw [resolve_from_binding _ dotted orig hlen hbindf2, hcqf]
      show Except.ok (orig, (rebind (scanTargets t w pre).2 dotted orig).containerQual
        dotted, (splitDots dotted).getLastD "") = _
      have : (rebind (scanTargets t w pre).2 dotted orig).containerQual dotted =
          w.containerQual dotted := hcqp
      rw [this, ← hcq, ← hat]
    · rw [hfilter [Alert.replaced dotted base.fp (_fingerprint_callable v),
        Alert.restore_ok dotted] (by rw [hstep])]
      simp [restoreFor]
  · have hautop : (scanTargets t w pre).1.auto_restore = true := by
      rw [heqp]; exact hauto
    have hsp : (scanTargets t w pre).2.setattrOk dotted = false := by
      rw [hsokp]; exact hs
    have hstep := scanStep_hit_fail (scanTargets t w pre).1 (scanTargets t w pre).2
      dotted base v cq at_ orig hbp hrp hm hautop hop hsp
    obtain ⟨hbindf, _⟩ := hworld (scanTargets t w pre).2 (by rw [hstep])
    constructor
    · rw [hbindf, hwbind dotted hpre]
    · rw [hfilter [Alert.replaced dotted base.fp (_fingerprint_callable v),
        Alert.restore_fail dotted ((scanTargets t w pre).2.setattrErr dotted)]
        (by rw [hstep])]
      rw [hserrp]
      simp [restoreFor]
  · constructor
    · rw [scan_once_world]
      exact (scanTargets_noauto t.targets t w hauto).1
    · rw [scan_once_filter_kinds isRestore (fun _ _ => rfl) (fun _ _ _ => rfl)]
      exact (scanTargets_noauto t.targets t w hauto).2

/-- Concrete scans exercising `c5_restore_correctness`: auto-restore on with
a working `setattr` (the binding is put back and one `restore ok` alert is
appended), and auto-restore off (world untouched, no restore alert). -/
theorem c5_restore_correctness_witness :
    (exTrap.auto_restore = true ∧ exWorldTampered.setattrOk "m.f" = true ∧
      _resolve_dotted (PatchTrap._scan_once exTrap exWorldTampered).2 "m.f" =
          .ok (exVal0, "m", "f") ∧
      (PatchTrap._scan_once exTrap exWorldTampered).1.alerts.filter
          (restoreFor "m.f") =
        exTrap.alerts.filter (restoreFor "m.f") ++ [Alert.restore_ok "m.f"]) ∧
    (exTrapNoAuto.auto_restore = false ∧
      (PatchTrap._scan_once exTrapNoAuto exWorldTampered).2 = exWorldTampered ∧
      (PatchTrap._scan_once exTrapNoAuto exWorldTampered).1.alerts.filter
          isRestore =
        exTrapNoAuto.alerts.filter isRestore) :=
  ⟨⟨by decide, by decide,
    (c5_restore_correctness exTrap exWorldTampered "m.f"
      ⟨_fingerprint_callable exVal0, "m", "f"⟩ exVal1 exVal0 "m" "f"
      (by decide) (by decide) rfl (by decide) (by decide)).1 (by decide) (by decide)⟩,
   ⟨by decide,
    (c5_restore_correctness exTrapNoAuto exWorldTampered "m.f"
      ⟨_fingerprint_callable exVal0, "m", "f"⟩ exVal1 exVal0 "m" "f"
      (by decide) (by decide) rfl (by decide) (by decide)).2.2 (by decide)⟩⟩

/-- Membership in an insertion is membership in the parts. -/
theorem mem_insertSorted (x y : String) (l : List String) :
    y ∈ insertSorted x l ↔ y = x ∨ y ∈ l := by
  induction l with
  | nil => simp [insertSorted]
  | cons z zs ih =>
    simp only [insertSorted]
    split_ifs with h
    · simp only [List.mem_cons, ih]
      tauto
    · exact List.mem_cons

/-- `sorted` does not change membership. -/
theorem mem_sortStr (y : String) (l : List String) :
    y ∈ sortStr l ↔ y ∈ l := by
  induction l with
  | nil => simp [sortStr]
  | cons x xs ih => simp [sortStr, mem_insertSorted, ih]

/-- A key is absent from a dictionary exactly when lookup fails. -/
theorem lookupStr_none_iff (k : String) (l : List (String × String)) :
    lookupStr k l = none ↔ k ∉ l.map Prod.fst := by
  induction l with
  | nil => simp [lookupStr]
  | cons p ps ih =>
    obtain ⟨a, b⟩ := p
    simp only [lookupStr, List.map_cons, List.mem_cons]
    split_ifs with h
    · subst h
      simp
    · rw [ih]
      constructor
      · intro hk hor
        rcases hor with hor | hor
        · exact h hor.symm
        · exact hk hor
      · intro hk
        exact fun hm => hk (Or.inr hm)

/-- A successful lookup puts the key among the dictionary keys. -/
theorem lookupStr_some_mem (k v : String) (l : List (String × String))
    (h : lookupStr k l = some v) : k ∈ l.map Prod.fst := by
  by_contra hk
  rw [(lookupStr_none_iff k l).mpr hk] at h
  cases h

/-- The `env_changed` alert appended by `_scan_once`, expressed against the
sealed snapshot `t.env0` and the live environment `w.env`: exactly one such
alert is appended when any of the three partitions is non-empty, none
otherwise. -/
theorem scan_once_env_alert (t : PatchTrap) (w : World) :
    (PatchTrap._scan_once t w).1.alerts.filter isEnvChangedAlert =
      t.alerts.filter isEnvChangedAlert ++
        (if envAdded t.env0 w.env = [] ∧ envRemoved t.env0 w.env = [] ∧
            envChangedKeys t.env0 w.env = [] then []
         else [Alert.env_changed (envAddedPairs t.env0 w.env)
            (envRemovedPairs t.env0 w.env) (envChangedTriples t.env0 w.env)]) := by
  obtain ⟨n1, heq, hts⟩ := scanTargets_shape t.targets t w
  have henv : (scanTargets t w t.targets).2.env = w.env :=
    (scanTargets_world t.targets t w).1.1
  have hn1 : n1.filter isEnvChangedAlert = [] := by
    refine List.filter_eq_nil_iff.mpr (fun a ha hpa => ?_)
    obtain ⟨d, _, hta⟩ := hts a ha
    cases a <;> simp_all [isEnvChangedAlert, alertTarget]
  unfold PatchTrap._scan_once
  dsimp only
  rw [heq, henv]
  dsimp only
  split_ifs
  all_goals simp [List.filter_append, hn1, isEnvChangedAlert]

/-- The `added` partition is exactly the set of keys present now and absent
at seal time. -/
theorem envAdded_iff (env0 envNow : List (String × String)) (k : String) :
    k ∈ envAdded env0 envNow ↔
      lookupStr k envNow ≠ none ∧ lookupStr k env0 = none := by
  unfold envAdded envKeys
  rw [mem_sortStr, List.mem_filter, List.mem_dedup]
  constructor
  · rintro ⟨hmem, hcond⟩
    exact ⟨fun hnone => ((lookupStr_none_iff k _).mp hnone) hmem,
      Option.isNone_iff_eq_none.mp hcond⟩
  · rintro ⟨hne, h0⟩
    refine ⟨?_, Option.isNone_iff_eq_none.mpr h0⟩
    by_contra hk
    exact hne ((lookupStr_none_iff k _).mpr hk)

/-- The `removed` partition is exactly the set of keys present at seal time
and absent now. -/
theorem envRemoved_iff (env0 envNow : List (String × String)) (k : String) :
    k ∈ envRemoved env0 envNow ↔
      lookupStr k env0 ≠ none ∧ lookupStr k envNow = none := by
  unfold envRemoved envKeys
  rw [mem_sortStr, List.mem_filter, List.mem_dedup]
  constructor
  · rintro ⟨hmem, hcond⟩
    exact ⟨fun hnone => ((lookupStr_none_iff k _).mp hnone) hmem,
      Option.isNone_iff_eq_none.mp hcond⟩
  · rintro ⟨hne, h0⟩
    refine ⟨?_, Option.isNone_iff_eq_none.mpr h0⟩
    by_contra hk
    exact hne ((lookupStr_none_iff k _).mpr hk)

/-- The `changed` partition is exactly the set of keys present at both
times with different values. -/
theorem envChangedKeys_iff (env0 envNow : List (String × String)) (k : String) :
    k ∈ envChangedKeys env0 envNow ↔
      ∃ v0 v1, lookupStr k env0 = some v0 ∧ lookupStr k envNow = some v1 ∧
        v0 ≠ v1 := by
  unfold envChangedKeys envKeys
  rw [mem_sortStr, List.mem_filter, List.mem_dedup]
  constructor
  · rintro ⟨hmem, hcond⟩
    cases h0 : lookupStr k env0 with
    | none =>
      rw [h0] at hcond
      exact absurd hcond (by simp)
    | some v0 =>
      cases h1 : lookupStr k envNow with
      | none =>
        rw [h0, h1] at hcond
        exact absurd hcond (by simp)
      | some v1 =>
        rw [h0, h1] at hcond
        dsimp only at hcond
        exact ⟨v0, v1, rfl, rfl, bne_iff_ne.mp hcond⟩
  · rintro ⟨v0, v1, h0, h1, hne⟩
    refine ⟨lookupStr_some_mem k v1 envNow h1, ?_⟩
    rw [h0, h1]
    exact bne_iff_ne.mpr hne

/-! ## Claim C8 -/

/-- Claim C8: for every scan, with `added` the environment keys introduced
since seal, `removed` those deleted since seal, and `changed` those present
at both times with a different value: if any partition is non-empty,
exactly one `env_changed` alert is appended carrying exactly the three
partitions; if all are empty, no such alert is appended. -/
theorem c8_env_diff_completeness (t : PatchTrap) (w : World) :
    ((PatchTrap._scan_once t w).1.alerts.filter isEnvChangedAlert =
      t.alerts.filter isEnvChangedAlert ++
        (if envAdded t.env0 w.env = [] ∧ envRemoved t.env0 w.env = [] ∧
            envChangedKeys t.env0 w.env = [] then []
         else [Alert.env_changed (envAddedPairs t.env0 w.env)
            (envRemovedPairs t.env0 w.env) (envChangedTriples t.env0 w.env)])) ∧
    (∀ k, k ∈ envAdded t.env0 w.env ↔
      lookupStr k w.env ≠ none ∧ lookupStr k t.env0 = none) ∧
    (∀ k, k ∈ envRemoved t.env0 w.env ↔
      lookupStr k t.env0 ≠ none ∧ lookupStr k w.env = none) ∧
    (∀ k, k ∈ envChangedKeys t.env0 w.env ↔
      ∃ v0 v1, lookupStr k t.env0 = some v0 ∧ lookupStr k w.env = some v1 ∧
        v0 ≠ v1) :=
  ⟨scan_once_env_alert t w,
    fun k => envAdded_iff t.env0 w.env k,
    fun k => envRemoved_iff t.env0 w.env k,
    fun k => envChangedKeys_iff t.env0 w.env k⟩

/-! ## Claim C9 -/

/-- Claim C9 as stated is false: two values in different categories can
receive identical fingerprint hashes, because the hashed payload does not
encode the category.  A callable instance whose class has
`__module__ = "not-callable:a"`, `__qualname__ = "b"` and `repr` `"x"`
(generic-callable) and a non-callable value whose `repr` is `"a.b:x"`
both hash the tag `"not-callable:a.b:x"`. -/
theorem c9_counterexample :
    category (PyValue.generic "C" "not-callable:a" "b" "x") ≠
      category (PyValue.noncall "D" "a.b:x") ∧
    (_fingerprint_callable (PyValue.generic "C" "not-callable:a" "b" "x")).hash =
      (_fingerprint_callable (PyValue.noncall "D" "a.b:x")).hash := by
  refine ⟨by decide, by decide⟩

/-- Claim C9 (amended): fingerprint hashes of category-different values
differ exactly when the hashed payloads differ — the hash is an injective
function of the payload bytes, but since the payload does not encode the
category, category difference alone does not force hash difference. -/
theorem c9_category_separation (v1 v2 : PyValue)
    (hc : category v1 ≠ category v2)
    (hp : fpPayload v1 ≠ fpPayload v2) :
    (_fingerprint_callable v1).hash ≠ (_fingerprint_callable v2).hash := by
  intro h
  exact hp h

/-- Concrete category-different pair with different payloads, hence
different hashes: an interpreted-unit function versus an opaque-native
builtin. -/
theorem c9_category_separation_witness :
    (category (PyValue.func "function" [1] "()" "()" "()" "f.py" 1 "m" "f") ≠
        category (PyValue.builtin "builtin_function_or_method" "m" "f" "r0") ∧
      fpPayload (PyValue.func "function" [1] "()" "()" "()" "f.py" 1 "m" "f") ≠
        fpPayload (PyValue.builtin "builtin_function_or_method" "m" "f" "r0")) ∧
    (_fingerprint_callable
        (PyValue.func "function" [1] "()" "()" "()" "f.py" 1 "m" "f")).hash ≠
      (_fingerprint_callable
        (PyValue.builtin "builtin_function_or_method" "m" "f" "r0")).hash :=
  ⟨⟨by decide, by decide⟩,
    c9_category_separation
      (PyValue.func "function" [1] "()" "()" "()" "f.py" 1 "m" "f")
      (PyValue.builtin "builtin_function_or_method" "m" "f" "r0")
      (by decide) (by decide)⟩

/-! ## Claim C4 -/

/-- Claim C4 as stated is false: a resolution failure for one target blocks
sealing of the remaining targets.  Sealing `["z", "m.f"]` aborts at `"z"`
(a one-segment name, so resolution raises `ValueError`) and leaves the
perfectly resolvable `"m.f"` unsealed. -/
theorem c4_counterexample :
    (PatchTrap.seal (PatchTrap.init ["z", "m.f"] true 0 exWorld) exWorld).2 =
      some "ValueError(invalid dotted name: z)" ∧
    _resolve_dotted exWorld "m.f" = .ok (exVal0, "m", "f") ∧
    (PatchTrap.seal (PatchTrap.init ["z", "m.f"] true 0 exWorld) exWorld).1.baseline
      "m.f" = none := by
  refine ⟨by decide, rfl, by decide⟩

/-- Claim C4 (amended): `seal` runs the targets in order and aborts at the
first whose resolution raises: every target before the failing one is
sealed with its full baseline entry (fingerprint, container label,
attribute name, retained original value), the raised error is propagated,
and the failing target and everything after it (not already sealed
earlier) is left unsealed. -/
theorem c4_seal_aborts (t : PatchTrap) (w : World) (pre : List String)
    (bad : String) (post : List String) (e : String)
    (htgt : t.targets = pre ++ bad :: post)
    (hpre : ∀ d ∈ pre, ∃ r, _resolve_dotted w d = Except.ok r)
    (hbad : _resolve_dotted w bad = Except.error e)
    (hbase : ∀ x, t.baseline x = none) :
    (PatchTrap.seal t w).2 = some e ∧
    (∀ d ∈ pre, ∃ (val : PyValue) (cq at_ : String),
      _resolve_dotted w d = Except.ok (val, cq, at_) ∧
      (PatchTrap.seal t w).1.baseline d =
        some ⟨_fingerprint_callable val, cq, at_⟩ ∧
      (PatchTrap.seal t w).1.originals d = some val) ∧
    (∀ x, x ∉ pre → (PatchTrap.seal t w).1.baseline x = none) := by
  have main : ∀ (pre2 : List String) (t2 : PatchTrap),
      (∀ d ∈ pre2, ∃ r, _resolve_dotted w d = Except.ok r) →
      (sealList t2 w (pre2 ++ bad :: post)).2 = some e ∧
      (∀ d ∈ pre2, ∃ (val : PyValue) (cq at_ : String),
        _resolve_dotted w d = Except.ok (val, cq, at_) ∧
        (sealList t2 w (pre2 ++ bad :: post)).1.baseline d =
          some ⟨_fingerprint_callable val, cq, at_⟩ ∧
        (sealList t2 w (pre2 ++ bad :: post)).1.originals d = some val) ∧
      (∀ x, x ∉ pre2 →
        (sealList t2 w (pre2 ++ bad :: post)).1.baseline x = t2.baseline x ∧
        (sealList t2 w (pre2 ++ bad :: post)).1.originals x = t2.originals x) := by
    intro pre2
    induction pre2 with
    | nil =>
      intro t2 _
      rw [List.nil_append]
      unfold sealList
      rw [hbad]
      exact ⟨rfl, by simp, fun x _ => ⟨rfl, rfl⟩⟩
    | cons d0 ds ih =>
      intro t2 hres
      obtain ⟨⟨val0, cq0, at0⟩, hr0⟩ := hres d0 (List.mem_cons_self d0 ds)
      have hstep : sealList t2 w ((d0 :: ds) ++ bad :: post) =
          sealList
            { t2 with
              originals := fun x => if x = d0 then some val0 else t2.originals x
              baseline := fun x =>
                if x = d0 then
                  some ⟨_fingerprint_callable val0, cq0, at0⟩
                else t2.baseline x }
            w (ds ++ bad :: post) := by
        show sealList t2 w (d0 :: (ds ++ bad :: post)) = _
        conv_lhs => rw [sealList]
        rw [hr0]
      obtain ⟨ihs, ihpre, ihframe⟩ := ih
        { t2 with
          originals := fun x => if x = d0 then some val0 else t2.originals x
          baseline := fun x =>
            if x = d0 then
              some ⟨_fingerprint_callable val0, cq0, at0⟩
            else t2.baseline x }
        (fun d hd => hres d (List.mem_cons_of_mem d0 hd))
      refine ⟨by rw [hstep]; exact ihs, ?_, ?_⟩
      · intro d hd
        rcases List.mem_cons.mp hd with rfl | hd
        · by_cases hmem : d ∈ ds
          · obtain ⟨val, cq, at_, hr, hbm, hom⟩ := ihpre d hmem
            exact ⟨val, cq, at_, hr, by rw [hstep]; exact hbm,
              by rw [hstep]; exact hom⟩
          · obtain ⟨hbm, hom⟩ := ihframe d hmem
            refine ⟨val0, cq0, at0, hr0, ?_, ?_⟩
            · rw [hstep, hbm]
              simp
            · rw [hstep, hom]
              simp
        · obtain ⟨val, cq, at_, hr, hbm, hom⟩ := ihpre d hd
          exact ⟨val, cq, at_, hr, by rw [hstep]; exact hbm,
            by rw [hstep]; exact hom⟩
      · intro x hx
        have hxd0 : x ≠ d0 := fun hc => hx (hc ▸ List.mem_cons_self d0 ds)
        have hxds : x ∉ ds := fun hc => hx (List.mem_cons_of_mem d0 hc)
        obtain ⟨hbm, hom⟩ := ihframe x hxds
        constructor
        · rw [hstep, hbm]
          simp [hxd0]
        · rw [hstep, hom]
          simp [hxd0]
  obtain ⟨h1, h2, h3⟩ := main pre t hpre
  have hseal : PatchTrap.seal t w = sealList t w (pre ++ bad :: post) := by
    show sealList t w t.targets = _
    rw [htgt]
  refine ⟨?_, ?_, ?_⟩
  · rw [hseal]
    exact h1
  · intro d hd
    obtain ⟨val, cq, at_, hr, hbm, hom⟩ := h2 d hd
    refine ⟨val, cq, at_, hr, ?_, ?_⟩
    · rw [hseal]
      exact hbm
    · rw [hseal]
      exact hom
  · intro x hx
    rw [hseal, (h3 x hx).1]
    exact hbase x

/-- Concrete seal exercising `c4_seal_aborts`: `["m.f", "z"]` seals `m.f`,
aborts at `z`, and propagates the `ValueError`. -/
theorem c4_seal_aborts_witness :
    (exTrapTwo.targets = ["m.f"] ++ "z" :: [] ∧
      _resolve_dotted exWorld "z" =
        Except.error "ValueError(invalid dotted name: z)") ∧
    (PatchTrap.seal exTrapTwo exWorld).2 =
        some "ValueError(invalid dotted name: z)" ∧
    (∀ d ∈ ["m.f"], ∃ (val : PyValue) (cq at_ : String),
      _resolve_dotted exWorld d = Except.ok (val, cq, at_) ∧
      (PatchTrap.seal exTrapTwo exWorld).1.baseline d =
        some ⟨_fingerprint_callable val, cq, at_⟩ ∧
      (PatchTrap.seal exTrapTwo exWorld).1.originals d = some val) ∧
    (∀ x, x ∉ ["m.f"] → (PatchTrap.seal exTrapTwo exWorld).1.baseline x = none) :=
  ⟨⟨rfl, rfl⟩,
    c4_seal_aborts exTrapTwo exWorld ["m.f"] "z" []
      "ValueError(invalid dotted name: z)" rfl
      (fun d hd => by
        have hd2 : d = "m.f" := by simpa using hd
        exact hd2 ▸ ⟨(exVal0, "m", "f"), rfl⟩)
      rfl
      (fun x => rfl)⟩
